import Mathlib

/-!
Shallow embedding of the mind-map widget in `src/main.js`.

JavaScript numbers are modelled as exact rationals (`ℚ`); the only numeric
operations the claims touch are addition, `Math.max` and `Math.min`, and in
every claim below the clamping makes the relevant boundary values exact
independently of binary rounding.  `Math.random`-based id generation
(`generateId`, main.js line 4) is nondeterministic, so every operation that
calls it takes the generated id as an explicit argument: a run of the program
is parameterised by the sequence of ids the generator returned.
-/

namespace MindMap

/-- The node record `{ id, content, x, y }` created by `addNode`
(main.js line 68). -/
structure Node where
  id : String
  content : String
  x : ℚ
  y : ℚ
deriving DecidableEq

/-- The edge record `{ id, sourceId, targetId }` created by `addEdge`
(main.js line 73). -/
structure Edge where
  id : String
  sourceId : String
  targetId : String
deriving DecidableEq

/-- The reactive state owned by `MindMapCanvas`: `this.nodes`, `this.edges`,
`this.scale` (main.js lines 30-35). -/
structure Canvas where
  nodes : List Node
  edges : List Edge
  scale : ℚ
deriving DecidableEq

/-- The constructor state: empty sequences, scale 1 (main.js lines 30-35). -/
def initialCanvas : Canvas := { nodes := [], edges := [], scale := 1 }

/-- `addNode(content, x, y)` (main.js lines 67-70):
`this.nodes = [...this.nodes, { id: generateId(), content, x, y }]`.
The id returned by `generateId()` is the explicit `newId` argument. -/
def addNode (c : Canvas) (newId content : String) (x y : ℚ) : Canvas :=
  { c with nodes := c.nodes ++ [{ id := newId, content := content, x := x, y := y }] }

/-- `addEdge(sourceId, targetId)` (main.js lines 72-75):
`this.edges = [...this.edges, { id: generateId(), sourceId, targetId }]`.
The source performs no lookup in `this.nodes` before appending. -/
def addEdge (c : Canvas) (newId sourceId targetId : String) : Canvas :=
  { c with edges := c.edges ++ [{ id := newId, sourceId := sourceId, targetId := targetId }] }

/-- `zoom(delta)` (main.js lines 77-79):
`this.scale = Math.max(0.1, Math.min(2, this.scale + delta))`. -/
def zoom (c : Canvas) (delta : ℚ) : Canvas :=
  { c with scale := max (1/10) (min 2 (c.scale + delta)) }

/-- `handleNodeMoved(e)` (main.js lines 54-60): with `{ id, x, y } = e.detail`,
`this.nodes = this.nodes.map(node => node.id === id ? { ...node, x, y } : node)`. -/
def handleNodeMoved (c : Canvas) (id : String) (x y : ℚ) : Canvas :=
  { c with nodes := c.nodes.map (fun n => if n.id = id then { n with x := x, y := y } else n) }

/-- `handleNodeSelected(e)` (main.js lines 62-65): a placeholder that
changes no state. -/
def handleNodeSelected (c : Canvas) (_id : String) : Canvas := c

/-- One public operation or notification handler of the canvas. -/
inductive Op where
  | opAddNode (newId content : String) (x y : ℚ)
  | opAddEdge (newId sourceId targetId : String)
  | opZoom (delta : ℚ)
  | opNodeMoved (id : String) (x y : ℚ)
  | opNodeSelected (id : String)

/-- Dispatch one operation on the canvas state. -/
def applyOp (c : Canvas) : Op → Canvas
  | .opAddNode newId content x y => addNode c newId content x y
  | .opAddEdge newId s t => addEdge c newId s t
  | .opZoom d => zoom c d
  | .opNodeMoved i x y => handleNodeMoved c i x y
  | .opNodeSelected i => handleNodeSelected c i

/-- The scale invariant: the zoom scale lies in `[0.1, 2.0]`. -/
def scaleInv (c : Canvas) : Prop := 1/10 ≤ c.scale ∧ c.scale ≤ 2

/-- `zoom` applied `n` times with delta `0.1`, as in the repeated-zoom
scenario. -/
def zoomIter : Nat → Canvas → Canvas
  | 0, c => c
  | n + 1, c => zoom (zoomIter n c) (1/10)

/-- One `addNode` call together with the id `generateId()` returned for it. -/
structure AddCall where
  newId : String
  content : String
  x : ℚ
  y : ℚ

/-- The node record that an `addNode` call appends (main.js line 68). -/
def AddCall.toNode (a : AddCall) : Node :=
  { id := a.newId, content := a.content, x := a.x, y := a.y }

/-- Run a sequence of `addNode` calls. -/
def runAddNodes (c : Canvas) (calls : List AddCall) : Canvas :=
  calls.foldl (fun acc a => addNode acc a.newId a.content a.x a.y) c

/-- The drag origin captured by `onDragStart` (main.js lines 118-121):
the press-time pointer coordinates and the press-time node position. -/
structure DragOrigin where
  startX : ℚ
  startY : ℚ
  startLeft : ℚ
  startTop : ℚ
deriving DecidableEq

/-- A `MindMapNode` view: the bound node snapshot plus the drag-listener
state.  `drag = some o` models the `mousemove`/`mouseup` window listeners
installed by `onDragStart` with captured origin `o` (main.js lines 136-137);
`drag = none` models their absence (before any press, or after `onDragEnd`
removed them, main.js lines 131-134). -/
structure NodeView where
  data : Node
  drag : Option DragOrigin
deriving DecidableEq

/-- The payload of the `node-moved` event dispatched by `updatePosition`
(main.js lines 140-146): `{ id: this.data.id, x, y }`. -/
structure MovedDetail where
  id : String
  x : ℚ
  y : ℚ
deriving DecidableEq

/-- Pointer events delivered to a node view: `mousedown` on the element,
and the window-level `mousemove` / `mouseup`. -/
inductive MouseEvt where
  | down (clientX clientY : ℚ)
  | move (clientX clientY : ℚ)
  | up

/-- One event step of a node view, returning the new view state and the
`node-moved` notification emitted, if any.
`down`: `onDragStart` (main.js 116-138) captures
`(e.clientX, e.clientY, this.data.x, this.data.y)` and installs the window
listeners; emits nothing.
`move`: if the listeners are installed, `onDrag` (main.js 123-129) emits
`(id, startLeft + dx, startTop + dy)` and leaves the captured origin in
place; otherwise no listener runs.
`up`: `onDragEnd` (main.js 131-134) removes the listeners; emits nothing. -/
def nodeStep (v : NodeView) : MouseEvt → NodeView × Option MovedDetail
  | .down cx cy =>
      ({ v with drag := some { startX := cx, startY := cy,
                               startLeft := v.data.x, startTop := v.data.y } }, none)
  | .move cx cy =>
      match v.drag with
      | some o => (v, some { id := v.data.id,
                             x := o.startLeft + (cx - o.startX),
                             y := o.startTop + (cy - o.startY) })
      | none => (v, none)
  | .up => ({ v with drag := none }, none)

/-- Run a sequence of pointer events, collecting the emitted `node-moved`
notifications in order. -/
def runEvts (v : NodeView) : List MouseEvt → NodeView × List MovedDetail
  | [] => (v, [])
  | e :: es =>
      let s := nodeStep v e
      let r := runEvts s.1 es
      (r.1, s.2.toList ++ r.2)

/-- The measured bounding rectangle returned by `getBoundingClientRect()`
(main.js lines 182-183); supplied by the layout environment. -/
structure Rect where
  left : ℚ
  top : ℚ
  width : ℚ
  height : ℚ

/-- A mounted `mind-map-node` element as the canvas template creates it
(main.js lines 41-45): the node record is bound to the element's `data`
property (`.data=` is a property binding and sets no HTML attribute), and
nothing anywhere in main.js sets a `data-id` attribute on the element, so
`dataIdAttr`, the value of the element's `data-id` attribute, is `none`.
`rect` is the element's measured bounding rectangle. -/
structure MountedNode where
  data : Node
  dataIdAttr : Option String
  rect : Rect

/-- The list of `mind-map-node` elements mounted inside the canvas's
container `div`, one per node in order (main.js lines 40-46), with measured
rectangles given by `measure`. -/
def mountNodes (c : Canvas) (measure : Node → Rect) : List MountedNode :=
  c.nodes.map (fun n => { data := n, dataIdAttr := none, rect := measure n })

/-- `this.parentElement.querySelector('mind-map-node[data-id="i"]')`
(main.js lines 175-176): the first sibling node element whose `data-id`
attribute equals `i`. -/
def queryNodeByDataId (siblings : List MountedNode) (i : String) : Option MountedNode :=
  siblings.find? (fun el => el.dataIdAttr == some i)

/-- The straight line drawn by the edge view's SVG path
`M startX startY L endX endY` (main.js lines 185-192). -/
structure Line where
  startX : ℚ
  startY : ℚ
  endX : ℚ
  endY : ℚ

/-- `MindMapEdge.render` (main.js lines 173-195): look both endpoints up by
`data-id`; if either lookup fails, render nothing (`html``` ``); otherwise
draw the line between the centers of the two measured rectangles. -/
def edgeRender (siblings : List MountedNode) (e : Edge) : Option Line :=
  match queryNodeByDataId siblings e.sourceId, queryNodeByDataId siblings e.targetId with
  | some s, some t =>
      some { startX := s.rect.left + s.rect.width / 2,
             startY := s.rect.top + s.rect.height / 2,
             endX := t.rect.left + t.rect.width / 2,
             endY := t.rect.top + t.rect.height / 2 }
  | _, _ => none

/-- A concrete canvas used to instantiate the reconciliation theorems. -/
def sampleCanvas : Canvas :=
  { nodes := [{ id := "a", content := "A", x := 1, y := 2 },
              { id := "b", content := "B", x := 3, y := 4 }],
    edges := [{ id := "e", sourceId := "a", targetId := "b" }],
    scale := 1 }

/-- A concrete id supply with two distinct ids. -/
def sampleCalls : List AddCall :=
  [{ newId := "a", content := "A", x := 10, y := 10 },
   { newId := "b", content := "B", x := 50, y := 50 }]

/-- A concrete id supply in which `generateId()` returned the same string
twice. -/
def dupCalls : List AddCall :=
  [{ newId := "a", content := "A", x := 0, y := 0 },
   { newId := "a", content := "B", x := 1, y := 1 }]

section Lemmas

lemma scaleInv_applyOp (c : Canvas) (o : Op) (h : scaleInv c) : scaleInv (applyOp c o) := by
  cases o with
  | opAddNode newId content x y => exact h
  | opAddEdge newId s t => exact h
  | opZoom d =>
      constructor
      · exact le_max_left _ _
      · exact max_le (by norm_num) (min_le_left _ _)
  | opNodeMoved i x y => exact h
  | opNodeSelected i => exact h

lemma scaleInv_foldl (ops : List Op) (c : Canvas) (h : scaleInv c) :
    scaleInv (ops.foldl applyOp c) := by
  induction ops generalizing c with
  | nil => exact h
  | cons o rest ih => exact ih _ (scaleInv_applyOp c o h)

lemma zoomIter_climb (k : Nat) (hk : k ≤ 10) :
    (zoomIter k initialCanvas).scale = 1 + (k : ℚ) / 10 := by
  induction k with
  | zero => simp [zoomIter, initialCanvas]
  | succ k ih =>
      have hs := ih (Nat.le_of_succ_le hk)
      have hk9 : (k : ℚ) ≤ 9 := by
        exact_mod_cast Nat.lt_succ_iff.mp (Nat.lt_of_succ_le hk)
      have hcast : ((k + 1 : ℕ) : ℚ) = (k : ℚ) + 1 := by push_cast; ring
      rw [hcast]
      show max (1/10) (min 2 ((zoomIter k initialCanvas).scale + 1/10)) = 1 + ((k : ℚ) + 1) / 10
      rw [hs]
      have h2 : (1 : ℚ) + (k : ℚ) / 10 + 1/10 ≤ 2 := by linarith
      have h1 : (1 : ℚ) / 10 ≤ 1 + (k : ℚ) / 10 + 1/10 := by
        have : (0 : ℚ) ≤ (k : ℚ) := Nat.cast_nonneg k
        linarith
      rw [min_eq_right h2, max_eq_right h1]
      ring

lemma zoomIter_stay (n : Nat) (c : Canvas) (h : c.scale = 2) :
    (zoomIter n c).scale = 2 := by
  induction n with
  | zero => exact h
  | succ n ih =>
      show max (1/10) (min 2 ((zoomIter n c).scale + 1/10)) = 2
      rw [ih, min_eq_left (by norm_num), max_eq_right (by norm_num)]

lemma zoomIter_add (m n : Nat) (c : Canvas) :
    zoomIter (m + n) c = zoomIter m (zoomIter n c) := by
  induction m with
  | zero => simp [zoomIter]
  | succ m ih =>
      rw [Nat.succ_add]
      show zoom (zoomIter (m + n) c) (1/10) = zoom (zoomIter m (zoomIter n c)) (1/10)
      rw [ih]

lemma runAddNodes_nodes (calls : List AddCall) (c : Canvas) :
    (runAddNodes c calls).nodes = c.nodes ++ calls.map AddCall.toNode := by
  induction calls generalizing c with
  | nil => simp [runAddNodes]
  | cons a rest ih =>
      show (runAddNodes (addNode c a.newId a.content a.x a.y) rest).nodes = _
      rw [ih]
      simp [addNode, AddCall.toNode]

lemma handleNodeMoved_nodes_get? (c : Canvas) (i : String) (x y : ℚ) (j : Nat) :
    (handleNodeMoved c i x y).nodes.get? j
      = (c.nodes.get? j).map (fun n => if n.id = i then { n with x := x, y := y } else n) := by
  show (c.nodes.map _).get? j = _
  induction c.nodes generalizing j with
  | nil => rfl
  | cons n l ih =>
      cases j with
      | zero => rfl
      | succ j => exact ih j

lemma handleNodeMoved_no_match (c : Canvas) (i : String) (x y : ℚ)
    (h : ∀ n ∈ c.nodes, n.id ≠ i) : handleNodeMoved c i x y = c := by
  show { c with nodes := _ } = c
  have hmap : c.nodes.map (fun n => if n.id = i then { n with x := x, y := y } else n)
      = c.nodes := by
    have := List.map_congr_left (l := c.nodes)
      (f := fun n => if n.id = i then { n with x := x, y := y } else n) (g := fun n => n)
      (fun n hn => if_neg (h n hn))
    rw [this, List.map_id']
  rw [hmap]

lemma queryNodeByDataId_mountNodes (c : Canvas) (measure : Node → Rect) (i : String) :
    queryNodeByDataId (mountNodes c measure) i = none := by
  apply List.find?_eq_none.mpr
  intro el hel
  simp only [mountNodes, List.mem_map] at hel
  obtain ⟨n, _, rfl⟩ := hel
  simp

lemma runEvts_moves_dragging (d : Node) (o : DragOrigin)
    (ps : List (ℚ × ℚ)) (rest : List MouseEvt) :
    runEvts { data := d, drag := some o } (ps.map (fun p => MouseEvt.move p.1 p.2) ++ rest)
      = ((runEvts { data := d, drag := some o } rest).1,
         ps.map (fun p => { id := d.id,
                            x := o.startLeft + (p.1 - o.startX),
                            y := o.startTop + (p.2 - o.startY) })
           ++ (runEvts { data := d, drag := some o } rest).2) := by
  induction ps with
  | nil => simp [runEvts]
  | cons p ps ih => simp [runEvts, nodeStep, ih]

lemma runEvts_moves_idle (d : Node) (ps : List (ℚ × ℚ)) :
    runEvts { data := d, drag := none } (ps.map (fun p => MouseEvt.move p.1 p.2))
      = ({ data := d, drag := none }, []) := by
  induction ps with
  | nil => simp [runEvts]
  | cons p ps ih => simp [runEvts, nodeStep, ih]

end Lemmas

/-- Claim C1: `zoom(d)` from scale `s` sets the scale to
`max(0.1, min(2.0, s + d))`; in particular a zoom that would land at or
below `0.1` lands at exactly `0.1` (so repeated zoom-out stays at `0.1`), and
a zoom that would land at or above `2.0` lands at exactly `2.0` (so repeated
zoom-in stays at `2.0`). -/
theorem zoom_clamped (c : Canvas) (d : ℚ) :
    (zoom c d).scale = max (1/10) (min 2 (c.scale + d))
    ∧ (c.scale + d ≤ 1/10 → (zoom c d).scale = 1/10)
    ∧ (2 ≤ c.scale + d → (zoom c d).scale = 2) := by
  refine ⟨rfl, ?_, ?_⟩
  · intro h
    show max (1/10) (min 2 (c.scale + d)) = 1/10
    exact max_eq_left (le_trans (min_le_right _ _) h)
  · intro h
    show max (1/10) (min 2 (c.scale + d)) = 2
    rw [min_eq_left h]
    exact max_eq_right (by norm_num)

/-- Claim C1 witness: zooming out by 5 from scale 1 lands at exactly 0.1, and
zooming in by 5 from scale 1 lands at exactly 2. -/
theorem zoom_clamped_witness :
    (zoom initialCanvas (-5)).scale = 1/10 ∧ (zoom initialCanvas 5).scale = 2 :=
  ⟨(zoom_clamped initialCanvas (-5)).2.1 (by norm_num [initialCanvas]),
   (zoom_clamped initialCanvas 5).2.2 (by norm_num [initialCanvas])⟩

/-- Claim C2: a drag that begins with a press at `(p0x, p0y)` while the node's
stored position is `(d.x, d.y)` emits, for every subsequent move to
`(p.1, p.2)`, a `node-moved` notification carrying the node's id and position
`(d.x + (p.1 - p0x), d.y + (p.2 - p0y))`; moves delivered after the release
emit nothing. -/
theorem drag_roundtrip (d : Node) (p0x p0y : ℚ) (moves post : List (ℚ × ℚ)) :
    (runEvts { data := d, drag := none }
        (MouseEvt.down p0x p0y
          :: (moves.map (fun p => MouseEvt.move p.1 p.2)
              ++ MouseEvt.up :: post.map (fun p => MouseEvt.move p.1 p.2)))).2
      = moves.map (fun p => { id := d.id,
                              x := d.x + (p.1 - p0x),
                              y := d.y + (p.2 - p0y) }) := by
  simp [runEvts, nodeStep, runEvts_moves_dragging, runEvts_moves_idle]

/-- Claim C3, amended: a sequence of `addNode` calls appends one node per call
in call order, each carrying the given content and coordinates and the id
`generateId()` returned for that call; the resulting ids are pairwise distinct
whenever the generator returned pairwise distinct ids. -/
theorem addNode_calls_spec (calls : List AddCall) :
    (runAddNodes initialCanvas calls).nodes = calls.map AddCall.toNode
    ∧ ((calls.map AddCall.newId).Nodup →
        ((runAddNodes initialCanvas calls).nodes.map Node.id).Nodup) := by
  have hnodes : (runAddNodes initialCanvas calls).nodes = calls.map AddCall.toNode := by
    rw [runAddNodes_nodes]
    simp [initialCanvas]
  refine ⟨hnodes, ?_⟩
  intro h
  rw [hnodes, List.map_map]
  have : (Node.id ∘ AddCall.toNode) = AddCall.newId := by
    funext a
    rfl
  rw [this]
  exact h

/-- Claim C3 witness: the id supply `["a", "b"]` is duplicate-free, and the
two resulting nodes carry pairwise distinct ids. -/
theorem addNode_calls_spec_witness :
    ((runAddNodes initialCanvas sampleCalls).nodes.map Node.id).Nodup :=
  (addNode_calls_spec sampleCalls).2 (by decide)

/-- Claim C3 counterexample: when `generateId()` returns the same string for
two consecutive `addNode` calls — which `Math.random`-based generation does
not rule out — the resulting node sequence has two nodes with the same id, so
the ids are not pairwise distinct. -/
theorem addNode_duplicate_supply_cex :
    (runAddNodes initialCanvas dupCalls).nodes.map Node.id = ["a", "a"]
    ∧ ¬ ((runAddNodes initialCanvas dupCalls).nodes.map Node.id).Nodup := by
  constructor
  · rfl
  · rw [show (runAddNodes initialCanvas dupCalls).nodes.map Node.id = ["a", "a"] from rfl]
    decide

/-- Claim C4: handling a `node-moved` notification `(i, x, y)` keeps the node
sequence the same length, replaces the `x`/`y` of every position whose node
has id `i` while leaving the other positions untouched, and is a complete
no-op on the canvas state when no node has id `i`. -/
theorem handleNodeMoved_reconciles (c : Canvas) (i : String) (x y : ℚ) :
    (handleNodeMoved c i x y).nodes.length = c.nodes.length
    ∧ (∀ j : Nat, (handleNodeMoved c i x y).nodes.get? j
        = (c.nodes.get? j).map (fun n => if n.id = i then { n with x := x, y := y } else n))
    ∧ ((∀ n ∈ c.nodes, n.id ≠ i) → handleNodeMoved c i x y = c) :=
  ⟨List.length_map _ _,
   fun j => handleNodeMoved_nodes_get? c i x y j,
   handleNodeMoved_no_match c i x y⟩

/-- Claim C4 witness: on the sample canvas, a notification with the unknown id
`"zzz"` leaves the canvas state exactly unchanged. -/
theorem handleNodeMoved_reconciles_witness :
    handleNodeMoved sampleCanvas "zzz" 5 6 = sampleCanvas :=
  (handleNodeMoved_reconciles sampleCanvas "zzz" 5 6).2.2 (by decide)

/-- Claim C5 (code bug): `MindMapEdge.render` looks endpoints up with
`querySelector('mind-map-node[data-id=...]')`, but the canvas template binds
the node record only as the `data` property and never sets a `data-id`
attribute on any `mind-map-node` element, so the lookup fails for every id
and every edge renders nothing — even when both endpoint nodes are mounted. -/
theorem edge_render_always_empty (c : Canvas) (measure : Node → Rect) (e : Edge) :
    edgeRender (mountNodes c measure) e = none := by
  show (match queryNodeByDataId (mountNodes c measure) e.sourceId,
              queryNodeByDataId (mountNodes c measure) e.targetId with
        | some s, some t => some _
        | _, _ => none) = none
  rw [queryNodeByDataId_mountNodes, queryNodeByDataId_mountNodes]

/-- Claim C6: whenever the `data-id` lookup of either endpoint of an edge
fails over the current sibling elements, the edge renders nothing for that
frame (and the total function `edgeRender` cannot throw); the lookup is a
function of the current render tree, re-evaluated on each render pass. -/
theorem edge_render_missing_none (siblings : List MountedNode) (e : Edge)
    (h : queryNodeByDataId siblings e.sourceId = none
       ∨ queryNodeByDataId siblings e.targetId = none) :
    edgeRender siblings e = none := by
  rcases h with h | h
  · show (match queryNodeByDataId siblings e.sourceId,
                queryNodeByDataId siblings e.targetId with
          | some s, some t => some _
          | _, _ => none) = none
    rw [h]
  · show (match queryNodeByDataId siblings e.sourceId,
                queryNodeByDataId siblings e.targetId with
          | some s, some t => some _
          | _, _ => none) = none
    rw [h]
    cases queryNodeByDataId siblings e.sourceId <;> rfl

/-- Claim C6 witness: an edge whose endpoints are not mounted at all renders
nothing. -/
theorem edge_render_missing_none_witness :
    edgeRender [] { id := "e", sourceId := "a", targetId := "b" } = none :=
  edge_render_missing_none [] { id := "e", sourceId := "a", targetId := "b" } (Or.inl rfl)

/-- Claim C7: `addEdge(sourceId, targetId)` appends the edge record built from
the generated id and the two given ids — for every pair of ids, including
self-referencing and dangling ones, with no existence check — and neither the
node sequence nor the scale is consulted or modified. -/
theorem addEdge_appends_unchecked (c : Canvas) (newId s t : String) :
    (addEdge c newId s t).edges
        = c.edges ++ [{ id := newId, sourceId := s, targetId := t }]
    ∧ (addEdge c newId s t).nodes = c.nodes
    ∧ (addEdge c newId s t).scale = c.scale :=
  ⟨rfl, rfl, rfl⟩

/-- Claim C8: applying `zoom(0.1)` 25 times from the initial scale 1.0 leaves
the scale at exactly 2.0: the `Math.min` clamp makes the value exactly 2 on
the tenth application and every later application keeps it there. -/
theorem zoom_25_times : (zoomIter 25 initialCanvas).scale = 2 := by
  have h10 : (zoomIter 10 initialCanvas).scale = 2 := by
    rw [zoomIter_climb 10 le_rfl]
    norm_num
  have h25 : zoomIter 25 initialCanvas = zoomIter 15 (zoomIter 10 initialCanvas) :=
    zoomIter_add 15 10 initialCanvas
  rw [h25]
  exact zoomIter_stay 15 _ h10

/-- Claim C9: the scale lies in `[0.1, 2.0]` in the initial state and after
every sequence of public operations and notification handlers. -/
theorem scale_invariant (ops : List Op) : scaleInv (ops.foldl applyOp initialCanvas) :=
  scaleInv_foldl ops initialCanvas (by constructor <;> norm_num [initialCanvas])

/-- Claim C10: handling a `node-moved` notification `(i, x, y)` leaves the
edge sequence, the scale, and the node sequence's length and order unchanged;
every node whose id differs from `i` is unchanged, and a node whose id equals
`i` keeps its id and content and takes `x`/`y` from the notification. -/
theorem handleNodeMoved_frame (c : Canvas) (i : String) (x y : ℚ) :
    (handleNodeMoved c i x y).edges = c.edges
    ∧ (handleNodeMoved c i x y).scale = c.scale
    ∧ (handleNodeMoved c i x y).nodes.length = c.nodes.length
    ∧ (∀ (j : Nat) (n : Node), c.nodes.get? j = some n →
        ((n.id ≠ i → (handleNodeMoved c i x y).nodes.get? j = some n)
         ∧ (n.id = i → (handleNodeMoved c i x y).nodes.get? j
              = some { id := n.id, content := n.content, x := x, y := y }))) := by
  refine ⟨rfl, rfl, List.length_map _ _, ?_⟩
  intro j n hj
  have hg := handleNodeMoved_nodes_get? c i x y j
  rw [hj] at hg
  constructor
  · intro hne
    rw [hg]
    simp [if_neg hne]
  · intro heq
    rw [hg]
    simp [if_pos heq]

/-- Claim C10 witness: on the sample canvas, moving node `"a"` to `(5, 6)`
rewrites exactly its coordinates and leaves node `"b"` untouched. -/
theorem handleNodeMoved_frame_witness :
    (handleNodeMoved sampleCanvas "a" 5 6).nodes.get? 0
        = some { id := "a", content := "A", x := 5, y := 6 }
    ∧ (handleNodeMoved sampleCanvas "a" 5 6).nodes.get? 1
        = some { id := "b", content := "B", x := 3, y := 4 } :=
  ⟨((handleNodeMoved_frame sampleCanvas "a" 5 6).2.2.2 0
      { id := "a", content := "A", x := 1, y := 2 } rfl).2 rfl,
   ((handleNodeMoved_frame sampleCanvas "a" 5 6).2.2.2 1
      { id := "b", content := "B", x := 3, y := 4 } rfl).1 (by decide)⟩

end MindMap
